import Mathlib

/-!
Shallow embedding of the decision logic of the to-do demo application:

* the Access Gate (`src/proxy.ts`): the `authorized` callback, the public
  allow-list and the configured sign-in page;
* the axios interceptors (`src/lib/axios/interceptors.ts`): the request
  interceptor that attaches the bearer credential and the response error
  interceptor that classifies 401/403/429;
* the TanStack Query cache write-propagation handlers
  (`src/features/todos/store/todosSlice.ts`): the `onSuccess` handlers of
  `useCreateTodo` and `useDeleteTodo`, embedded as the list of cache
  operations they perform;
* the retry policy of the query layer, driven by
  `API_CONFIG.RETRY_ATTEMPTS` (`src/config/api.config.ts`).
-/

namespace Tanstack

/-! ## Definitions -/

/-! ### Access Gate (src/proxy.ts) -/

/-- JavaScript `String.prototype.startsWith(pre)`: the characters of `pre`
are a prefix of the characters of `s`.  (Embedded at the character-list level
so the kernel can evaluate it on concrete paths.) -/
def jsStartsWith (s pre : String) : Bool :=
  pre.data.isPrefixOf s.data

/-- The credential state an inbound request can carry (spec §4.1):
present-and-valid, absent, or present-and-invalid. -/
inductive CredState
  | presentValid
  | absent
  | presentInvalid
deriving DecidableEq, Repr

/-- Modelled from the spec: the authentication library (`withAuth`) validates
the carried credential before invoking the `authorized` callback; a missing or
invalid credential reaches the callback as a null `token`, a valid one as a
decoded token object.  Spec §7: credential-layer failures "never reach the
Access Gate as anything other than absent/invalid". -/
def tokenOf : CredState → Option Unit
  | CredState.presentValid => some ()
  | CredState.absent => none
  | CredState.presentInvalid => none

/-- src/proxy.ts line 20: the public allow-list. -/
def publicRoutes : List String := ["/login", "/api/auth"]

/-- src/proxy.ts lines 21-23:
`publicRoutes.some((route) => req.nextUrl.pathname.startsWith(route))`. -/
def isPublicRoute (pathname : String) : Bool :=
  publicRoutes.any (fun route => jsStartsWith pathname route)

/-- src/proxy.ts lines 15-28: the `authorized` callback.  If a decoded token
exists the request is admitted; otherwise public routes are admitted and
everything else is denied. -/
def authorized (token : Option Unit) (pathname : String) : Bool :=
  if token.isSome then true
  else if isPublicRoute pathname then true
  else false

/-- src/proxy.ts line 32: `pages.signIn`, the redirect target on denial. -/
def signInPage : String := "/login"

/-! ### Axios interceptors (src/lib/axios/interceptors.ts) -/

/-- Browser `localStorage`: a keyed string store. -/
abbrev Storage := List (String × String)

/-- `localStorage.getItem(key)`. -/
def getItem (s : Storage) (key : String) : Option String :=
  (s.find? (fun kv => kv.1 == key)).map (fun kv => kv.2)

/-- `localStorage.removeItem(key)`. -/
def removeItem (s : Storage) (key : String) : Storage :=
  s.filter (fun kv => kv.1 != key)

/-- The request headers the interceptor touches. -/
structure Headers where
  authorization : Option String := none
  contentType : Option String := none
deriving DecidableEq, Repr

/-- An outbound axios request configuration. -/
structure RequestConfig where
  url : String := ""
  headers : Headers := {}
deriving DecidableEq, Repr

/-- src/lib/axios/interceptors.ts lines 6-20: the request interceptor.
`isClient` models the check that `window` is defined; the auth token is read
from `localStorage` and attached as a Bearer authorization header under the
JS truthiness guard `if (token)` — a null result or the empty string (the
only falsy string) attaches nothing — and the fixed `Content-Type` header is
always set. -/
def requestInterceptor (isClient : Bool) (storage : Storage)
    (config : RequestConfig) : RequestConfig :=
  let token := if isClient then getItem storage "authToken" else none
  let config1 :=
    match token with
    | some t =>
        if t == "" then config
        else
          { config with
            headers := { config.headers with
                         authorization := some ("Bearer " ++ t) } }
    | none => config
  { config1 with
    headers := { config1.headers with contentType := some "application/json" } }

/-- The axios error object, carrying the optional response status. -/
structure AxiosError where
  status : Option Nat
deriving DecidableEq, Repr

/-- The outcome of a response interceptor: the promise resolves or rejects. -/
inductive Outcome
  | resolve
  | reject (e : AxiosError)
deriving DecidableEq, Repr

/-- The client-side effects the response error interceptor can perform:
the `localStorage` contents, the value assigned to `window.location.href`
(if any), and the console error log. -/
structure ClientFx where
  storage : Storage
  location : Option String := none
  logs : List String := []
deriving DecidableEq, Repr

/-- src/lib/axios/interceptors.ts lines 31-52: the response error
interceptor.  On 401 (in a browser context) it removes `authToken` from
`localStorage` and navigates to `/login`; on 403 and 429 it only logs; in
every case it returns `Promise.reject(error)`. -/
def responseErrorInterceptor (isClient : Bool) (fx : ClientFx)
    (e : AxiosError) : ClientFx × Outcome :=
  let fx1 :=
    if e.status == some 401 then
      if isClient then
        { fx with storage := removeItem fx.storage "authToken",
                  location := some "/login" }
      else fx
    else fx
  let fx2 :=
    if e.status == some 403 then
      { fx1 with logs := fx1.logs ++ ["Access forbidden"] }
    else fx1
  let fx3 :=
    if e.status == some 429 then
      { fx2 with logs := fx2.logs ++ ["Rate limit exceeded"] }
    else fx2
  (fx3, Outcome.reject e)

/-! ### Retry policy (src/config/api.config.ts and the query layer) -/

/-- src/config/api.config.ts: `API_CONFIG.RETRY_ATTEMPTS`. -/
def RETRY_ATTEMPTS : Nat := 1

/-- Modelled from the spec: the retry policy of the query layer — its
configuration file (`src/lib/api/queryClient.ts`, `retry: 1`) is not under
src/ — retries a failed call once per remaining retry budget and then
surfaces the error ("this facade performs at most one automatic retry and
then surfaces the error", spec §4.3).  `call n` is the transport result of
attempt number `n`; the loop returns the final outcome together with the
total number of attempts made. -/
def attemptLoop (call : Nat → Except AxiosError Unit) :
    Nat → Nat → Except AxiosError Unit × Nat
  | retriesLeft, attempt =>
    match call attempt with
    | Except.ok a => (Except.ok a, attempt + 1)
    | Except.error e =>
      match retriesLeft with
      | 0 => (Except.error e, attempt + 1)
      | Nat.succ n => attemptLoop call n (attempt + 1)

/-- A facade call run under the configured retry budget. -/
def facadeCall (call : Nat → Except AxiosError Unit) :
    Except AxiosError Unit × Nat :=
  attemptLoop call RETRY_ATTEMPTS 0

/-! ### Cache write propagation (src/features/todos/store/todosSlice.ts) -/

/-- One element of a TanStack Query key tuple. -/
inductive KeyPart
  | str (s : String)
  | num (n : Nat)
deriving DecidableEq, Repr

/-- A query key is a tuple of scalars. -/
abbrev QueryKey := List KeyPart

/-- todosSlice.ts line 62: the key `["todos"]`. -/
def TODOS_QUERY_KEY : QueryKey := [KeyPart.str "todos"]

/-- todosSlice.ts line 63: the key `[...TODOS_QUERY_KEY, id]`. -/
def SINGLE_TODO_QUERY_KEY (id : Nat) : QueryKey :=
  TODOS_QUERY_KEY ++ [KeyPart.num id]

/-- todosSlice.ts lines 64-68: the key `[...TODOS_QUERY_KEY, "user", userId]`. -/
def USER_TODOS_QUERY_KEY (userId : Nat) : QueryKey :=
  TODOS_QUERY_KEY ++ [KeyPart.str "user", KeyPart.num userId]

/-- src/types: a to-do item. -/
structure Todo where
  id : Nat
  userId : Nat
  title : String
  completed : Bool
deriving DecidableEq, Repr

/-- A cache operation performed by an `onSuccess` handler: a `setQueryData`
write of a to-do list under a key, or an `invalidateQueries` on a key. -/
inductive CacheOp
  | setTodoList (key : QueryKey) (value : List Todo)
  | invalidate (key : QueryKey)
deriving DecidableEq, Repr

/-- todosSlice.ts lines 100-108: the `onSuccess` handler of `useCreateTodo`,
as the list of cache operations it performs given the current `(todos,)`
entry (`oldData`).  It writes `[newTodo, ...oldData]` (or `[newTodo]` when
the entry is absent) under `TODOS_QUERY_KEY` and invalidates the owner key
`USER_TODOS_QUERY_KEY newTodo.userId`. -/
def createOnSuccess (newTodo : Todo) (oldData : Option (List Todo)) :
    List CacheOp :=
  let newList :=
    match oldData with
    | some old => newTodo :: old
    | none => [newTodo]
  [CacheOp.setTodoList TODOS_QUERY_KEY newList,
   CacheOp.invalidate (USER_TODOS_QUERY_KEY newTodo.userId)]

/-- todosSlice.ts lines 143-157: the `onSuccess` handler of `useDeleteTodo`.
With no `(todos,)` entry the updater returns `[]` and nothing else runs; with
an entry, the deleted item is looked up, the owner key is invalidated only
when it is found, and the filtered list is written back. -/
def deleteOnSuccess (id : Nat) (oldData : Option (List Todo)) :
    List CacheOp :=
  match oldData with
  | none => [CacheOp.setTodoList TODOS_QUERY_KEY []]
  | some old =>
    let todoToDelete := old.find? (fun todo => todo.id == id)
    let filtered := old.filter (fun todo => todo.id != id)
    (match todoToDelete with
     | some t => [CacheOp.invalidate (USER_TODOS_QUERY_KEY t.userId)]
     | none => []) ++
      [CacheOp.setTodoList TODOS_QUERY_KEY filtered]

/-! ## Theorems -/

/-! ### Helper lemmas -/

/-- After removing a key from the store, looking it up yields nothing. -/
theorem getItem_removeItem (s : Storage) (key : String) :
    getItem (removeItem s key) key = none := by
  have h : List.find? (fun kv => kv.1 == key) (removeItem s key) = none := by
    rw [List.find?_eq_none]
    intro kv hkv
    rcases List.mem_filter.mp hkv with ⟨hmem, hne⟩
    simp only [bne_iff_ne, ne_eq] at hne
    simp [hne]
  simp [getItem, h]

/-! ### Claims about the Access Gate -/

/-- C1: for every request path that does not match the public allow-list, if
the request carries no credential or an invalid credential, `authorized`
returns `false` (deny) and the configured redirect target is `/login`. -/
theorem authorized_denies_protected_without_valid_credential
    (cs : CredState) (pathname : String)
    (hpub : isPublicRoute pathname = false)
    (hcs : cs = CredState.absent ∨ cs = CredState.presentInvalid) :
    authorized (tokenOf cs) pathname = false ∧ signInPage = "/login" := by
  rcases hcs with h | h <;> subst h <;>
    simp [authorized, tokenOf, hpub, signInPage]

/-- Witness for C1: `GET /` with no credential is denied and the redirect
target is `/login`. -/
theorem authorized_denies_protected_without_valid_credential_witness :
    authorized (tokenOf CredState.absent) "/" = false ∧ signInPage = "/login" :=
  authorized_denies_protected_without_valid_credential CredState.absent "/"
    (by decide) (Or.inl rfl)

/-- C2: for every request path matching one of the public allow-list prefixes
(`/login`, `/api/auth`), `authorized` returns `true` regardless of whether the
credential is present-and-valid, absent, or present-and-invalid. -/
theorem authorized_admits_public_routes
    (cs : CredState) (pathname : String)
    (hpub : isPublicRoute pathname = true) :
    authorized (tokenOf cs) pathname = true := by
  cases cs <;> simp [authorized, tokenOf, hpub]

/-- Witness for C2: `/api/auth/callback/google` is admitted with no credential
present. -/
theorem authorized_admits_public_routes_witness :
    authorized (tokenOf CredState.absent) "/api/auth/callback/google" = true :=
  authorized_admits_public_routes CredState.absent "/api/auth/callback/google"
    (by decide)

/-- C3 counterexample: the claim says `/login-admin` is classified protected
and denied when no credential is present; in the code, classification is raw
prefix containment (`startsWith`), so `/login-admin` is admitted (`authorized`
returns `true`, not `false`) with no credential. -/
theorem loginAdmin_admitted_without_credential :
    authorized (tokenOf CredState.absent) "/login-admin" = true := by
  decide

/-- C3 amended: route classification uses raw prefix containment, not exact
path-segment matching: `/login-admin`, whose first segment merely begins with
"login", matches the `/login` allow-list prefix and is admitted by the gate
for every credential state, including no credential at all. -/
theorem loginAdmin_admitted_for_all_credential_states (cs : CredState) :
    authorized (tokenOf cs) "/login-admin" = true := by
  cases cs <;> decide

/-- C9: the decision of the Access Gate is total and deterministic —
`authorized` is a function into `Bool` — and every failed validation (a
credential state that reaches the callback as a null token) resolves to the
pure path classification: admit exactly the public routes, deny everything
else, never an exception. -/
theorem authorized_failed_validation_resolves_to_deny
    (cs : CredState) (pathname : String)
    (h : tokenOf cs = none) :
    authorized (tokenOf cs) pathname = isPublicRoute pathname := by
  rw [h]
  by_cases hpub : isPublicRoute pathname <;> simp [authorized, hpub]

/-- Witness for C9: an invalid credential on `/` deterministically resolves to
deny (`/` is not public). -/
theorem authorized_failed_validation_resolves_to_deny_witness :
    authorized (tokenOf CredState.presentInvalid) "/" = isPublicRoute "/" :=
  authorized_failed_validation_resolves_to_deny CredState.presentInvalid "/" rfl

/-! ### Claims about the interceptors -/

/-- C4: for every response with HTTP status 401, the response interceptor
removes `authToken` from local storage (so the credential is no longer
retrievable), routes the client to `/login`, and the promise still rejects
with the error. -/
theorem response401_clears_credential_redirects_and_rejects
    (fx : ClientFx) (e : AxiosError) (h : e.status = some 401) :
    (responseErrorInterceptor true fx e).1.storage
        = removeItem fx.storage "authToken" ∧
      getItem (responseErrorInterceptor true fx e).1.storage "authToken"
        = none ∧
      (responseErrorInterceptor true fx e).1.location = some "/login" ∧
      (responseErrorInterceptor true fx e).2 = Outcome.reject e := by
  simp [responseErrorInterceptor, h, getItem_removeItem]

/-- Witness for C4: a 401 error against a store holding a credential. -/
theorem response401_clears_credential_redirects_and_rejects_witness :
    (responseErrorInterceptor true
        { storage := [("authToken", "tok")] } (AxiosError.mk (some 401))).1.storage
        = removeItem [("authToken", "tok")] "authToken" ∧
      getItem (responseErrorInterceptor true
        { storage := [("authToken", "tok")] } (AxiosError.mk (some 401))).1.storage
        "authToken" = none ∧
      (responseErrorInterceptor true
        { storage := [("authToken", "tok")] } (AxiosError.mk (some 401))).1.location
        = some "/login" ∧
      (responseErrorInterceptor true
        { storage := [("authToken", "tok")] } (AxiosError.mk (some 401))).2
        = Outcome.reject (AxiosError.mk (some 401)) :=
  response401_clears_credential_redirects_and_rejects
    { storage := [("authToken", "tok")] } (AxiosError.mk (some 401)) rfl

/-- C5: for every response with HTTP status 403, the promise rejects with the
(Forbidden) error while local storage and the navigation target are left
unchanged — no credential purge and no redirect, unlike the 401 branch. -/
theorem response403_rejects_without_purge_or_redirect
    (fx : ClientFx) (e : AxiosError) (h : e.status = some 403) :
    (responseErrorInterceptor true fx e).1.storage = fx.storage ∧
      (responseErrorInterceptor true fx e).1.location = fx.location ∧
      (responseErrorInterceptor true fx e).2 = Outcome.reject e := by
  simp [responseErrorInterceptor, h]

/-- Witness for C5: a 403 error against a store holding a credential. -/
theorem response403_rejects_without_purge_or_redirect_witness :
    (responseErrorInterceptor true
        { storage := [("authToken", "tok")] } (AxiosError.mk (some 403))).1.storage
        = [("authToken", "tok")] ∧
      (responseErrorInterceptor true
        { storage := [("authToken", "tok")] } (AxiosError.mk (some 403))).1.location
        = none ∧
      (responseErrorInterceptor true
        { storage := [("authToken", "tok")] } (AxiosError.mk (some 403))).2
        = Outcome.reject (AxiosError.mk (some 403)) :=
  response403_rejects_without_purge_or_redirect
    { storage := [("authToken", "tok")] } (AxiosError.mk (some 403)) rfl

/-- C6 counterexample: the claim says every credential present in local
storage is attached as a Bearer authorization header; with a stored
empty-string `authToken` — present in the store, but JS-falsy — the
interceptor attaches nothing: the resulting config carries no authorization
header, only the fixed `Content-Type`. -/
theorem requestInterceptor_empty_token_attaches_nothing :
    getItem [("authToken", "")] "authToken" = some "" ∧
      requestInterceptor true [("authToken", "")] {} =
        { url := "",
          headers := { authorization := none,
                       contentType := some "application/json" } } := by
  constructor <;> rfl

/-- C6 amended: for every outbound request, if a nonempty credential is
present in local storage the request interceptor attaches it as a Bearer
authorization header; if no credential is present, or the stored value is
the empty string (falsy under the JS `if (token)` guard), the request passes
through with its authorization header untouched and no mutation beyond the
fixed `Content-Type` header. -/
theorem requestInterceptor_attaches_truthy_bearer_or_passes_through
    (storage : Storage) (config : RequestConfig) :
    (∀ t, getItem storage "authToken" = some t → t ≠ "" →
        requestInterceptor true storage config =
          { config with
            headers := { authorization := some ("Bearer " ++ t),
                         contentType := some "application/json" } }) ∧
      (getItem storage "authToken" = some "" →
        requestInterceptor true storage config =
          { config with
            headers := { config.headers with
                         contentType := some "application/json" } }) ∧
      (getItem storage "authToken" = none →
        requestInterceptor true storage config =
          { config with
            headers := { config.headers with
                         contentType := some "application/json" } }) := by
  refine ⟨?_, ?_, ?_⟩
  · intro t ht hne
    simp [requestInterceptor, ht, hne]
  · intro ht
    simp [requestInterceptor, ht]
  · intro ht
    simp [requestInterceptor, ht]

/-- Witness for C6 amended: with a stored nonempty credential the Bearer
header is attached; with a stored empty string, and with an empty store,
only `Content-Type` is set. -/
theorem requestInterceptor_attaches_truthy_bearer_or_passes_through_witness :
    requestInterceptor true [("authToken", "tok")] {} =
        { url := "",
          headers := { authorization := some ("Bearer " ++ "tok"),
                       contentType := some "application/json" } } ∧
      requestInterceptor true [("authToken", "")] { url := "/todos" } =
        { url := "/todos",
          headers := { contentType := some "application/json" } } ∧
      requestInterceptor true [] { url := "/todos" } =
        { url := "/todos",
          headers := { contentType := some "application/json" } } :=
  ⟨(requestInterceptor_attaches_truthy_bearer_or_passes_through
      [("authToken", "tok")] {}).1 "tok" rfl (by decide),
   (requestInterceptor_attaches_truthy_bearer_or_passes_through
      [("authToken", "")] { url := "/todos" }).2.1 rfl,
   (requestInterceptor_attaches_truthy_bearer_or_passes_through
      [] { url := "/todos" }).2.2 rfl⟩

/-! ### Claim about the retry policy -/

/-- C7: a facade call that keeps receiving HTTP 429 makes exactly two
attempts — one automatic retry — and then surfaces the 429 error; and no
facade call ever makes more than `1 + RETRY_ATTEMPTS = 2` attempts, so the
facade never retries more than once on its own. -/
theorem facadeCall_429_at_most_one_retry_then_surfaces
    (call : Nat → Except AxiosError Unit)
    (h : ∀ n, call n = Except.error (AxiosError.mk (some 429))) :
    (facadeCall call).1 = Except.error (AxiosError.mk (some 429)) ∧
      (facadeCall call).2 = 1 + RETRY_ATTEMPTS ∧
      ∀ g : Nat → Except AxiosError Unit,
        (facadeCall g).2 ≤ 1 + RETRY_ATTEMPTS := by
  refine ⟨?_, ?_, ?_⟩
  · simp [facadeCall, RETRY_ATTEMPTS, attemptLoop, h]
  · simp [facadeCall, RETRY_ATTEMPTS, attemptLoop, h]
  · intro g
    simp only [facadeCall, RETRY_ATTEMPTS, attemptLoop]
    cases g 0 with
    | ok a => simp
    | error e =>
        simp only []
        cases g 1 with
        | ok a => simp
        | error e2 => simp

/-- Witness for C7: the constant-429 transport. -/
theorem facadeCall_429_at_most_one_retry_then_surfaces_witness :
    (facadeCall (fun _ => Except.error (AxiosError.mk (some 429)))).1
        = Except.error (AxiosError.mk (some 429)) ∧
      (facadeCall (fun _ => Except.error (AxiosError.mk (some 429)))).2
        = 1 + RETRY_ATTEMPTS ∧
      ∀ g : Nat → Except AxiosError Unit,
        (facadeCall g).2 ≤ 1 + RETRY_ATTEMPTS :=
  facadeCall_429_at_most_one_retry_then_surfaces
    (fun _ => Except.error (AxiosError.mk (some 429))) (fun _ => rfl)

/-! ### Claims about cache write propagation -/

/-- C8: on a successful create with the `(todos,)` entry present, the handler
performs exactly two cache operations — a write of the new item prepended to
the existing list under `TODOS_QUERY_KEY`, and an invalidation of the owner
key for the owner id of the new item — so no other cache key is written. -/
theorem createOnSuccess_prepends_and_invalidates_owner
    (newTodo : Todo) (old : List Todo) :
    createOnSuccess newTodo (some old) =
      [CacheOp.setTodoList TODOS_QUERY_KEY (newTodo :: old),
       CacheOp.invalidate (USER_TODOS_QUERY_KEY newTodo.userId)] :=
  rfl

/-- C10: when a delete succeeds with no `(todos,)` entry in the cache, the
handler installs the empty list under `TODOS_QUERY_KEY` and performs no
invalidation at all; and whenever it does invalidate a key, the `(todos,)`
entry existed, the deleted item was found in it, and the invalidated key is
the owner key of that item. -/
theorem deleteOnSuccess_missing_entry_installs_empty_no_invalidation
    (id : Nat) :
    deleteOnSuccess id none = [CacheOp.setTodoList TODOS_QUERY_KEY []] ∧
      ∀ oldData k, CacheOp.invalidate k ∈ deleteOnSuccess id oldData →
        ∃ old t, oldData = some old ∧
          old.find? (fun todo => todo.id == id) = some t ∧
          t ∈ old ∧ t.id = id ∧ k = USER_TODOS_QUERY_KEY t.userId := by
  constructor
  · rfl
  · intro oldData k hk
    cases oldData with
    | none =>
        simp [deleteOnSuccess] at hk
    | some old =>
        cases hfind : old.find? (fun todo => todo.id == id) with
        | none =>
            simp [deleteOnSuccess, hfind] at hk
        | some t =>
            refine ⟨old, t, rfl, hfind, List.mem_of_find?_eq_some hfind, ?_, ?_⟩
            · have := List.find?_some hfind
              simpa using this
            · simp [deleteOnSuccess, hfind] at hk
              exact hk

/-- Witness for C10: deleting id 1 with no cached list installs `[]`; with a
cached list containing the item, the invalidation targets its owner key. -/
theorem deleteOnSuccess_missing_entry_installs_empty_no_invalidation_witness :
    deleteOnSuccess 1 none = [CacheOp.setTodoList TODOS_QUERY_KEY []] ∧
      ∃ old t, some [Todo.mk 1 7 "a" false] = some old ∧
        old.find? (fun todo => todo.id == 1) = some t ∧
        t ∈ old ∧ t.id = 1 ∧
        USER_TODOS_QUERY_KEY 7 = USER_TODOS_QUERY_KEY t.userId :=
  ⟨(deleteOnSuccess_missing_entry_installs_empty_no_invalidation 1).1,
   (deleteOnSuccess_missing_entry_installs_empty_no_invalidation 1).2
      (some [Todo.mk 1 7 "a" false]) (USER_TODOS_QUERY_KEY 7) (by decide)⟩

end Tanstack
